import Mathlib

/-!
A shallow embedding of the two scraper modules of the NHL-Prospect-Predictor
repository (`eliteprospects_scraper_api.py` and `nhl_scraper_api.py`), together
with theorems settling the frozen claims about them.

Python strings are modelled as Lean `String`; Python `None` and pandas missing
values (`NaN`) are modelled as `Option.none`; a Python function that can raise
is modelled as returning `Except String _`.  Selenium page content is modelled
by explicit environment structures holding, for each `find_element` /
`get_attribute` call the code performs, the outcome that call would produce
(`none` meaning the lookup raised `NoSuchElementException` or the attribute was
absent).
-/

set_option autoImplicit false

/-- Python whitespace class: the characters matched by `str.strip()` and by
the regex class `\s` (ASCII fragment). -/
def isPyWs (c : Char) : Bool :=
  c = ' ' || c = '\t' || c = '\n' || c = '\r' || c = Char.ofNat 11 || c = Char.ofNat 12

/-- `str.strip()` on a character list: drop whitespace from both ends. -/
def stripChars (cs : List Char) : List Char :=
  ((cs.dropWhile isPyWs).reverse.dropWhile isPyWs).reverse

/-- `str.strip()` on a `String`. -/
def pyStrip (s : String) : String :=
  ⟨stripChars s.data⟩

/-- Value of a digit-character list read in base 10 (Python `int` on an
all-digit string). -/
def digitsToNat (cs : List Char) : Nat :=
  cs.foldl (fun n c => n * 10 + (c.toNat - 48)) 0

/-- Python `int(s)`: strips surrounding whitespace, then requires a nonempty
all-digit body (signs never occur in the texts this repository parses);
returns `none` where Python raises `ValueError`. -/
def pyInt (s : String) : Option Nat :=
  let body := stripChars s.data
  if body ≠ [] ∧ body.all Char.isDigit then some (digitsToNat body) else none

/-- Literal-prefix test on character lists (used to model regex literals). -/
def litAt : List Char → List Char → Bool
  | [], _ => true
  | _ :: _, [] => false
  | p :: ps, c :: cs => p = c && litAt ps cs

/-- Drop a literal from the front of a character list, or fail. -/
def dropLit (pat cs : List Char) : Option (List Char) :=
  if litAt pat cs then some (cs.drop pat.length) else none

/-- Require at least one `\s` character, consuming the maximal whitespace run
(models the regex piece `\s+` followed by a non-whitespace literal). -/
def dropWs1 (cs : List Char) : Option (List Char) :=
  match cs with
  | c :: rest => if isPyWs c then some (rest.dropWhile isPyWs) else none
  | [] => none

/-- Truthiness-respecting `or` of two attribute values, as in
`elem.get_attribute("xlink:href") or elem.get_attribute("href")`:
`None` and the empty string are falsy. -/
def pyOr (a b : Option String) : Option String :=
  match a with
  | some s => if s = "" then b else some s
  | none => b

/-- The season regex `^\d{4}-\d{4}$` of `re.match`: four digits, a dash, four
digits; `$` also accepts a single trailing newline. -/
def matchesSeasonFormat (s : String) : Bool :=
  match s.data with
  | [a, b, c, d, dash, e, f, g, h] =>
      a.isDigit && b.isDigit && c.isDigit && d.isDigit && dash = '-'
        && e.isDigit && f.isDigit && g.isDigit && h.isDigit
  | [a, b, c, d, dash, e, f, g, h, nl] =>
      a.isDigit && b.isDigit && c.isDigit && d.isDigit && dash = '-'
        && e.isDigit && f.isDigit && g.isDigit && h.isDigit && nl = '\n'
  | _ => false

namespace EP

/-! ### `eliteprospects_scraper_api.py` -/

/-- `truncate_description`: `None` and the empty string give `None`
(Python `if not text`); otherwise cut just after the last period, or return
the text unchanged when it has no period. -/
def truncate_description (text : Option String) : Option String :=
  match text with
  | none => none
  | some s =>
      if s = "" then none
      else
        match lastDotTake s.data with
        | some p => some ⟨p⟩
        | none => some s
where
  /-- Prefix of the list up to and including its last `'.'`, if any
  (`text[:text.rfind(".") + 1]`). -/
  lastDotTake : List Char → Option (List Char)
    | [] => none
    | c :: rest =>
        match lastDotTake rest with
        | some p => some (c :: p)
        | none => if c = '.' then some [c] else none

/-- Does the character list begin with a citation tag `[EP dddd]`
(the regex `\[EP \d{4}\]`)? -/
def epTagAt : List Char → Bool
  | '[' :: 'E' :: 'P' :: ' ' :: a :: b :: c :: d :: ']' :: _ =>
      a.isDigit && b.isDigit && c.isDigit && d.isDigit
  | _ => false

/-- `re.split(r"\[EP \d{4}\]", s)[0]`: the text before the first citation
tag, or the whole text when no tag occurs. -/
def epSplitHead : List Char → List Char
  | [] => []
  | c :: rest => if epTagAt (c :: rest) then [] else c :: epSplitHead rest

/-- The description post-processing of `get_player_facts` applied to the raw
element text: `full_desc = text.strip()` then
`re.split(r"\[EP \d{4}\]", full_desc)[0].strip()`. -/
def descFromText (raw : String) : String :=
  pyStrip ⟨epSplitHead (stripChars raw.data)⟩

/-- The full biography pipeline of `get_player_facts`: citation split followed
by `truncate_description`. -/
def description_pipeline (raw : String) : Option String :=
  truncate_description (some (descFromText raw))

/-- Lowercase letter class `[a-z]`. -/
def isLowerAZ (c : Char) : Bool :=
  'a' ≤ c && c ≤ 'z'

/-- Match the draft regex
`(\d+)[a-z]{2}\s+round,\s+(\d+)[a-z]{2}\s+overall\s+\((\d{4})\)`
anchored at the head of the list.  Every quantified piece is followed by a
character it cannot itself match, so the greedy semantics are deterministic. -/
def matchDraftAt (cs : List Char) : Option (String × String × String) := do
  let d1 := cs.takeWhile Char.isDigit
  if d1 = [] then none
  else
    match cs.dropWhile Char.isDigit with
    | a :: b :: r2 =>
        if isLowerAZ a && isLowerAZ b then do
          let r3 ← dropWs1 r2
          let r4 ← dropLit "round,".data r3
          let r5 ← dropWs1 r4
          let d2 := r5.takeWhile Char.isDigit
          if d2 = [] then none
          else
            match r5.dropWhile Char.isDigit with
            | a2 :: b2 :: r6 =>
                if isLowerAZ a2 && isLowerAZ b2 then do
                  let r7 ← dropWs1 r6
                  let r8 ← dropLit "overall".data r7
                  let r9 ← dropWs1 r8
                  match r9 with
                  | '(' :: y1 :: y2 :: y3 :: y4 :: ')' :: _ =>
                      if y1.isDigit && y2.isDigit && y3.isDigit && y4.isDigit then
                        some (⟨d1⟩, ⟨d2⟩, ⟨[y1, y2, y3, y4]⟩)
                      else none
                  | _ => none
                else none
            | _ => none
        else none
    | _ => none

/-- `re.search` with the draft regex: try every start position left to
right. -/
def searchDraft : List Char → Option (String × String × String)
  | [] => none
  | c :: rest =>
      match matchDraftAt (c :: rest) with
      | some r => some r
      | none => searchDraft rest

/-- `extract_draft_info`: `None` and `""` give `None` (`if not text`);
otherwise search the lowercased text for the draft pattern. -/
def extract_draft_info (text : Option String) : Option (String × String × String) :=
  match text with
  | none => none
  | some s => if s = "" then none else searchDraft (s.data.map Char.toLower)

/-- Character class `[\d\s]` of the pagination regex. -/
def isDigitOrWs (c : Char) : Bool :=
  c.isDigit || isPyWs c

/-- `re.search(r"([\d\s]+)players found", text)`: the first maximal nonempty
run of digits and whitespace that is immediately followed by the literal
`players found`; returns the captured run.  The literal begins with a
character outside the class, so greedy matching cannot backtrack into the
run and scanning start positions one by one is exact. -/
def searchCount : List Char → Option (List Char)
  | [] => none
  | c :: rest =>
      if isDigitOrWs c then
        let run := (c :: rest).takeWhile isDigitOrWs
        let rem := (c :: rest).dropWhile isDigitOrWs
        if litAt "players found".data rem then some run
        else searchCount rest
      else searchCount rest

/-- `get_number_of_pages`, from the stripped text of the pagination `div`
onwards.  `none` as input means the `div` was absent from the page.  After
the regex match the code runs `int(raw.replace(" ", ""))`, which raises
`ValueError` when a non-space whitespace character survives; that raise is
the `.error` branch. -/
def get_number_of_pages (pageText : Option String) : Except String Nat :=
  match pageText with
  | none => .ok 0
  | some t =>
      match searchCount t.data with
      | none => .ok 0
      | some run =>
          match pyInt ⟨run.filter (fun c => c ≠ ' ')⟩ with
          | some n => .ok (n / 100 + 1)
          | none => .error "ValueError: invalid literal for int"

end EP

/-! ### A small pandas `DataFrame` model

A frame is a column-name list plus rows of cells aligned with it; a cell is
`Option String`, with `none` standing for a missing value (`NaN`). -/

/-- A pandas `DataFrame` with string-valued cells; `none` cells are `NaN`. -/
structure DataFrame where
  cols : List String
  rows : List (List (Option String))
deriving Repr, DecidableEq

/-- The cell of a row at a named column (`none` when the column is absent or
the cell is `NaN`). -/
def cellAt (cols : List String) (row : List (Option String)) (c : String) : Option String :=
  match cols.findIdx? (fun x => x = c) with
  | some i => (row.get? i).join
  | none => none

/-- `pd.concat([d1, d2], ignore_index=True)` with `sort=False` defaults: the
column set is the union in order of first appearance; absent cells are
filled with `NaN`. -/
def concatDF (d1 d2 : DataFrame) : DataFrame :=
  let allCols := d1.cols ++ d2.cols.filter (fun c => ¬ d1.cols.contains c)
  { cols := allCols
    rows :=
      d1.rows.map (fun r => allCols.map (cellAt d1.cols r))
        ++ d2.rows.map (fun r => allCols.map (cellAt d2.cols r)) }

namespace EP

/-- The merge key of `merge_stats`:
`on=["player_name", "season", "team", "league"]`. -/
def mergeKeys : List String := ["player_name", "season", "team", "league"]

/-- The key tuple of a row, as compared by `pd.merge`. -/
def keyTuple (cols : List String) (row : List (Option String)) : List (Option String) :=
  mergeKeys.map (cellAt cols row)

/-- Output columns of
`df_regular.merge(df_postseason, on=mergeKeys, how="left", suffixes=("_regular", "_post"))`:
left columns (overlapping non-key names suffixed `_regular`), then the
non-key right columns (overlapping names suffixed `_post`). -/
def leftMergeCols (dfR dfP : DataFrame) : List String :=
  dfR.cols.map (fun c =>
      if ¬ mergeKeys.contains c ∧ dfP.cols.contains c then c ++ "_regular" else c)
    ++ (dfP.cols.filter (fun c => ¬ mergeKeys.contains c)).map (fun c =>
        if dfR.cols.contains c then c ++ "_post" else c)

/-- Rows of the left merge: each left row is paired with every right row of
equal key tuple; a left row with no match is padded with `NaN` on the right
stat columns. -/
def leftMergeRows (dfR dfP : DataFrame) : List (List (Option String)) :=
  let rightStatCols := dfP.cols.filter (fun c => ¬ mergeKeys.contains c)
  dfR.rows.flatMap (fun lr =>
    let ms := dfP.rows.filter (fun rr => keyTuple dfP.cols rr == keyTuple dfR.cols lr)
    match ms with
    | [] => [lr ++ rightStatCols.map (fun _ => none)]
    | _ :: _ => ms.map (fun rr => lr ++ rightStatCols.map (cellAt dfP.cols rr)))

/-- The left merge itself. -/
def leftMerge (dfR dfP : DataFrame) : DataFrame :=
  { cols := leftMergeCols dfR dfP, rows := leftMergeRows dfR dfP }

/-- The sanity check of `merge_stats`:
`{"season", "team", "league"}.issubset` of both column sets.  `player_name`
is not part of the checked set even though it is part of the merge key. -/
def requiredColumnsOk (dfR dfP : DataFrame) : Bool :=
  ["season", "team", "league"].all (fun c => dfR.cols.contains c)
    && ["season", "team", "league"].all (fun c => dfP.cols.contains c)

/-- Are all four merge-key columns present in both frames (the condition under
which `pd.merge` does not raise `KeyError`)? -/
def mergeKeysPresent (dfR dfP : DataFrame) : Bool :=
  mergeKeys.all (fun c => dfR.cols.contains c)
    && mergeKeys.all (fun c => dfP.cols.contains c)

/-- `merge_stats`: if the checked columns `{season, team, league}` are not a
subset of both frames, log and return the plain concatenation; otherwise call
`pd.merge` on all four key columns, which raises `KeyError` (the `.error`
branch) when `player_name` is missing from either frame, and otherwise
returns the left join. -/
def merge_stats (dfR dfP : DataFrame) : Except String DataFrame :=
  if ¬ requiredColumnsOk dfR dfP then
    .ok (concatDF dfR dfP)
  else if ¬ mergeKeysPresent dfR dfP then
    .error "KeyError: player_name"
  else
    .ok (leftMerge dfR dfP)

/-! ### `get_season_roster`: validation and derived fields -/

/-- The enumerated league codes accepted by `get_season_roster`. -/
def valid_leagues : List String :=
  ["nhl", "ahl", "echl", "sphl", "ncaa",
   "whl", "ohl", "qmjhl", "ushl", "nahl",
   "khl", "shl", "liiga", "nl", "czechia",
   "slovakia", "latvia", "finland"]

/-- The stage of `get_season_roster` up to its first network access: validate
the league against `valid_leagues`, validate the season against
`^\d{4}-\d{4}$`, and only then form the listing URL that is fetched.
`.error` models the `ValueError` raised before any request is issued;
`.ok url` carries the first URL the function would fetch. -/
def get_season_roster_request (league season : String) : Except String String :=
  if ¬ valid_leagues.contains league then
    .error "ValueError: Invalid league"
  else if ¬ matchesSeasonFormat season then
    .error "ValueError: Invalid season format. Please use the format YYYY-YYYY"
  else
    .ok ("https://www.eliteprospects.com/league/" ++ league ++ "/stats/" ++ season)

/-- Content up to the first `')'`, together with the remainder after it;
fails when no `')'` occurs before a newline (the regex `.` class excludes
newlines), modelling the lazy piece `\((.*?)\)` once the `'('` is fixed. -/
def innerToClose : List Char → Option (List Char × List Char)
  | [] => none
  | ')' :: r => some ([], r)
  | '\n' :: _ => none
  | c :: r =>
      match innerToClose r with
      | some (g, rest) => some (c :: g, rest)
      | none => none

/-- `str.replace(r"\s*\(.*?\)", "", regex=True)` on a character list: remove
every whitespace-run-plus-parenthesized-group, scanning left to right.  The
first argument is fuel, instantiated with the list length. -/
def stripParenAux : Nat → List Char → List Char
  | 0, cs => cs
  | _ + 1, [] => []
  | n + 1, c :: r =>
      match (c :: r).dropWhile isPyWs with
      | '(' :: r2 =>
          match innerToClose r2 with
          | some (_, rest) => stripParenAux n rest
          | none => c :: stripParenAux n r
      | _ => c :: stripParenAux n r

/-- The derived `player_name` column:
`df["player"].str.replace(r"\s*\(.*?\)", "", regex=True)`. -/
def roster_player_name (s : String) : String :=
  ⟨stripParenAux s.data.length s.data⟩

/-- `re.search` scan for `\((.*?)\)`: the content of the first parenthesized
group that closes before a newline. -/
def extractParen : List Char → Option (List Char)
  | [] => none
  | '(' :: r =>
      (match innerToClose r with
       | some (g, _) => some g
       | none => extractParen r)
  | _ :: r => extractParen r

/-- The derived `position` column:
`df["player"].str.extract(r"\((.*?)\).*")`; `none` is `NaN` (no match). -/
def roster_position (s : String) : Option String :=
  (extractParen s.data).map (fun g => (⟨g⟩ : String))

/-- The derived `fw_def` column:
`np.where(df["position"].str.contains("D"), "DEF", "FW")`.
On a `NaN` position, `str.contains` yields `NaN`, and `np.where` treats `NaN`
as a true condition, so the row is tagged `DEF`. -/
def roster_fw_def (pos : Option String) : String :=
  match pos with
  | some p => if p.data.contains 'D' then "DEF" else "FW"
  | none => "DEF"

/-- The composite role tag derived from the raw player display string. -/
def roster_role (s : String) : String :=
  roster_fw_def (roster_position s)

end EP

namespace NHL

/-! ### `nhl_scraper_api.py` -/

/-- The module-level `valid_teams` enumeration. -/
def valid_teams : List String :=
  ["bruins", "sabres", "redwings", "panthers", "canadiens",
   "senators", "lightning", "mapleleafs", "hurricanes", "bluejackets",
   "devils", "islanders", "rangers", "flyers", "penguins",
   "capitals", "blackhawks", "avalanche", "stars", "wild",
   "predators", "blues", "jets", "ducks", "flames",
   "oilers", "kings", "sharks", "kraken", "canucks",
   "goldenknights", "utah"]

/-- `validate_team`. -/
def validate_team (team : String) : Bool :=
  valid_teams.contains team

/-- `validate_season`: `re.match(r"^\d{4}-\d{4}$", season)`. -/
def validate_season (season : String) : Bool :=
  matchesSeasonFormat season

/-- The stage of `get_player_by_team` up to its first network access:
validate team and season (raising `ValueError`, the `.error` branch, before
any request), then return `None` for the `2004-2005` lockout season without
building a URL or starting a browser (`.ok none`), and otherwise the URL the
browser would navigate to (`.ok (some url)`). -/
def get_player_by_team_request (team season : String) : Except String (Option String) :=
  if ¬ validate_team team then
    .error "ValueError: Invalid team"
  else if ¬ validate_season season then
    .error "ValueError: Invalid season format. Please use the format YYYY-YYYY"
  else
    let parts := season.splitOn "-"
    let seasonYearCat := (parts.get? 0).getD "" ++ (parts.get? 1).getD ""
    if season = "2004-2005" then
      .ok none
    else
      .ok (some ("https://www.nhl.com/" ++ team ++ "/stats/" ++ seasonYearCat))

/-- The same stage of `get_player_by_team_with_reusable_driver`; it forms the
season string with `season.replace("-", "")` instead of a split. -/
def get_player_by_team_with_reusable_driver_request (team season : String) :
    Except String (Option String) :=
  if ¬ validate_team team then
    .error "ValueError: Invalid team"
  else if ¬ validate_season season then
    .error "ValueError: Invalid season format. Please use the format YYYY-YYYY"
  else if season = "2004-2005" then
    .ok none
  else
    .ok (some ("https://www.nhl.com/" ++ team ++ "/stats/" ++ season.replace "-" ""))

/-- The outcomes of the per-row element lookups performed on one
`tbody.rt-tbody > tr.rt-tr` table row.  `none` on `nameElem` means the
`a[href*="/player/"]` lookup raised; `imgElem` is the
`.headshot-container img` lookup with its `src` attribute value; `svgElem`
is the `.headshot-container image` lookup with its `xlink:href` and `href`
attribute values; `posElem` is the `td span[aria-label]` lookup with its
text. -/
structure RowEnv where
  nameElem : Option (String × String)
  imgElem : Option (Option String)
  svgElem : Option (Option String × Option String)
  posElem : Option String
deriving Repr, DecidableEq

/-- The record appended to `players` for one row. -/
structure PlayerRec where
  player_name : String
  player_pos : String
  player_link : String
  player_image : Option String
deriving Repr, DecidableEq

/-- The row body of `get_player_by_team` (the variant that owns its driver).
In its source the position-extraction block and the `players.append` call are
indented inside the `except:` handler of the raster-image lookup, so they run
only when that lookup raises: a row whose raster `<img>` lookup succeeds
falls through without appending anything (`none`). -/
def process_row (r : RowEnv) : Option PlayerRec :=
  match r.nameElem with
  | none => none
  | some (nmTxt, link) =>
      match r.imgElem with
      | some _ => none
      | none =>
          let image_url : Option String :=
            match r.svgElem with
            | some (x, h) => pyOr x h
            | none => none
          let player_pos : String :=
            match r.posElem with
            | some t => pyStrip t
            | none => "G"
          some ⟨pyStrip nmTxt, player_pos, link, image_url⟩

/-- The row body of `get_player_by_team_with_reusable_driver`, where the
position block and the append sit at row level: every row whose name/link
lookup succeeds appends exactly one record, with the image tried raster
first, vector second, and the position defaulting to `"G"`. -/
def process_row_reusable (r : RowEnv) : Option PlayerRec :=
  match r.nameElem with
  | none => none
  | some (nmTxt, link) =>
      let image_url : Option String :=
        match r.imgElem with
        | some src => src
        | none =>
            match r.svgElem with
            | some (x, h) => pyOr x h
            | none => none
      let player_pos : String :=
        match r.posElem with
        | some t => pyStrip t
        | none => "G"
      some ⟨pyStrip nmTxt, player_pos, link, image_url⟩

/-- The page loop of either variant over its row environments: a row whose
processing raises is logged and skipped, the rest of the page continues. -/
def collect_rows (f : RowEnv → Option PlayerRec) (rows : List RowEnv) : List PlayerRec :=
  rows.filterMap f

end NHL

namespace EP

/-! ### The Player Facts Collector -/

/-- `str.replace(pat, "")` on a character list with explicit fuel: remove
every occurrence of `pat`, scanning left to right (the empty pattern leaves
the text unchanged, as in Python). -/
def removeSubAux : Nat → List Char → List Char → List Char
  | 0, _, cs => cs
  | _ + 1, _, [] => []
  | n + 1, pat, c :: r =>
      if litAt pat (c :: r) then removeSubAux n pat ((c :: r).drop pat.length)
      else c :: removeSubAux n pat r

/-- `s.replace(pat, "")`. -/
def pyRemoveAll (s pat : String) : String :=
  ⟨removeSubAux s.data.length pat.data s.data⟩

/-- One `li` of a facts list: the outcome of the label lookup
(`find_element` on the label class, `none` when it raises) and the full item
text. -/
structure FactItem where
  labelText : Option String
  itemText : String
deriving Repr, DecidableEq

/-- `facts_dict[k] = v` on an insertion-ordered dictionary. -/
def dset (d : List (String × String)) (k v : String) : List (String × String) :=
  if d.any (fun p => p.1 = k) then d.map (fun p => if p.1 = k then (k, v) else p)
  else d ++ [(k, v)]

/-- `facts_dict.get(k)`. -/
def dget (d : List (String × String)) (k : String) : Option String :=
  (d.find? (fun p => p.1 = k)).map (fun p => p.2)

/-- Scan for the lazy tail `.*?#(\d+)` of the `Drafted` regex: the digits
after the first `'#'` that is followed by at least one digit, with the
newline-free constraint of the `.` class. -/
def tryHash : List Char → Option String
  | [] => none
  | '\n' :: _ => none
  | '#' :: r =>
      (let ds := r.takeWhile Char.isDigit
       if ds = [] then tryHash r else some ⟨ds⟩)
  | _ :: r => tryHash r

/-- Scan for `round\s+(\d+).*?#(\d+)` from the current position, trying each
occurrence of `round` in order (the backtracking of the lazy `.*?` that
precedes it). -/
def tryRoundAux : List Char → Option (String × String)
  | [] => none
  | '\n' :: _ => none
  | c :: r =>
      if litAt "round".data (c :: r) then
        match dropWs1 ((c :: r).drop 5) with
        | some rest1 =>
            (let ds := rest1.takeWhile Char.isDigit
             if ds = [] then tryRoundAux r
             else
               match tryHash (rest1.dropWhile Char.isDigit) with
               | some ov => some (⟨ds⟩, ov)
               | none => tryRoundAux r)
        | none => tryRoundAux r
      else tryRoundAux r

/-- `re.search(r"(\d{4}).*?round\s+(\d+).*?#(\d+)", value)`, returning
`(year, round, overall)`. -/
def draftedSearch : List Char → Option (String × String × String)
  | [] => none
  | c :: rest =>
      match c :: rest with
      | y1 :: y2 :: y3 :: y4 :: r4 =>
          if y1.isDigit && y2.isDigit && y3.isDigit && y4.isDigit then
            match tryRoundAux r4 with
            | some (rd, ov) => some (⟨[y1, y2, y3, y4]⟩, rd, ov)
            | none => draftedSearch rest
          else draftedSearch rest
      | _ => none

/-- Process one fact item into the dictionary: strip the label, delete every
occurrence of it from the item text and strip the remainder as the value,
store it, and, in the extra-facts loop (`withDraft = true`), reformat a
`Drafted` value as `{rnd}rd round, {overall}th overall ({year})` under the
`Draft` key. -/
def applyFactItem (withDraft : Bool) (d : List (String × String)) (it : FactItem) :
    List (String × String) :=
  match it.labelText with
  | none => d
  | some lt =>
      let label := pyStrip lt
      let value := pyStrip (pyRemoveAll it.itemText label)
      let d2 := dset d label value
      if withDraft && label = "Drafted" then
        match draftedSearch value.data with
        | some (y, rd, ov) =>
            dset d2 "Draft" (rd ++ "rd round, " ++ ov ++ "th overall (" ++ y ++ ")")
        | none => d2
      else d2

/-- The facts-list loop of `get_player_facts`: an item whose label lookup
raises is skipped (`continue`). -/
def buildDict (withDraft : Bool) (items : List FactItem) (d0 : List (String × String)) :
    List (String × String) :=
  items.foldl (applyFactItem withDraft) d0

/-- The facts-list loop of `get_player_facts_with_reusable_driver`: an item
whose label lookup raises re-raises, aborting the loop. -/
def buildDictE (withDraft : Bool) (items : List FactItem) (d0 : List (String × String)) :
    Except String (List (String × String)) :=
  items.foldlM
    (fun d it =>
      match it.labelText with
      | none => .error ("Failed to extract fact: " ++ it.itemText)
      | some _ => .ok (applyFactItem withDraft d it))
    d0

/-- `re.search(r"(\d+)\s*" ++ unit, text)` followed by `int` on the captured
digits, as used for the height (`cm`) and weight (`kg`) fields. -/
def searchNumUnit (unit : List Char) : List Char → Option Nat
  | [] => none
  | c :: r =>
      if c.isDigit then
        let ds := (c :: r).takeWhile Char.isDigit
        let rest := ((c :: r).dropWhile Char.isDigit).dropWhile isPyWs
        if litAt unit rest then some (digitsToNat ds) else searchNumUnit unit r
      else searchNumUnit unit r

/-- The highlights loop: keep tooltips that are present and truthy, stripped
(`if tooltip: highlights.append(tooltip.strip())`). -/
def processHighlights (ts : List (Option String)) : List String :=
  ts.filterMap (fun t =>
    match t with
    | some s => if s = "" then none else some (pyStrip s)
    | none => none)

/-- The player-type chips loop: keep stripped texts that are nonempty
(`text = chip.text.strip(); if text: ...`). -/
def processPlayerTypes (raws : List String) : List String :=
  raws.filterMap (fun t =>
    let st := pyStrip t
    if st = "" then none else some st)

/-- The outcomes of the element lookups performed inside the facts container
once it has appeared.  Each group is `none` when its lookup raised:
`mainFacts` and `extraFacts` are the two label/value `li` lists,
`highlights` the tooltip attribute values, `playerTypes` the chip texts, and
`description` the raw text of the description element. -/
structure FactsEnv where
  mainFacts : Option (List FactItem)
  extraFacts : Option (List FactItem)
  highlights : Option (List (Option String))
  playerTypes : Option (List String)
  description : Option String
deriving Repr, DecidableEq

/-- The single-row record compiled by `get_player_facts`. -/
structure FactsRow where
  player_name : String
  nation : Option String
  position : Option String
  height_cm : Option Nat
  weight_kg : Option Nat
  shoots : Option String
  player_type : Option (List String)
  nhl_rights : Option String
  draft : Option (String × String × String)
  highlights : List String
  description : Option String
deriving Repr, DecidableEq

/-- The dictionary built by `get_player_facts`: a failed main-facts lookup
leaves the dictionary empty, a failed extra-facts lookup leaves it as after
the main facts; both are logged only. -/
def factsDict (env : FactsEnv) : List (String × String) :=
  let d1 :=
    match env.mainFacts with
    | some items => buildDict false items []
    | none => []
  match env.extraFacts with
  | some items => buildDict true items d1
  | none => d1

/-- `get_player_facts`, from the appearance of the facts container onwards:
every field group is extracted under its own `try`, so the function always
compiles a row. -/
def get_player_facts (player_name : String) (env : FactsEnv) : FactsRow :=
  let d := factsDict env
  { player_name := player_name
    nation := dget d "Nation"
    position := dget d "Position"
    height_cm := (dget d "Height").bind (fun s => searchNumUnit "cm".data s.data)
    weight_kg := (dget d "Weight").bind (fun s => searchNumUnit "kg".data s.data)
    shoots := dget d "Shoots"
    player_type :=
      match env.playerTypes with
      | some raws => some (processPlayerTypes raws)
      | none => none
    nhl_rights := dget d "NHL Rights"
    draft := extract_draft_info (dget d "Draft")
    highlights :=
      match env.highlights with
      | some ts => processHighlights ts
      | none => []
    description :=
      truncate_description
        (match env.description with
         | some raw => some (descFromText raw)
         | none => none) }

/-- Month abbreviations of the `%b` directive, lowercased. -/
def month_abbrevs : List String :=
  ["jan", "feb", "mar", "apr", "may", "jun", "jul", "aug", "sep", "oct", "nov", "dec"]

/-- Days in a month of a given year (Gregorian). -/
def daysInMonth (m year : Nat) : Nat :=
  if m = 2 then
    if (year % 4 = 0 && year % 100 ≠ 0) || year % 400 = 0 then 29 else 28
  else if m = 4 ∨ m = 6 ∨ m = 9 ∨ m = 11 then 30
  else 31

/-- `pd.to_datetime(s, format="%b %d, %Y")` as a calendar-validated
`(year, month, day)` parse: an abbreviated month name (case-insensitive), a
space, a one- or two-digit day, a comma and space, and a four-digit year,
with nothing trailing; `none` models the raised parse error. -/
def parse_to_datetime (s : String) : Option (Nat × Nat × Nat) :=
  match s.data with
  | m1 :: m2 :: m3 :: ' ' :: rest =>
      match month_abbrevs.findIdx? (fun a => a = String.mk [m1.toLower, m2.toLower, m3.toLower]) with
      | some mi =>
          let month := mi + 1
          let finish (day : Nat) (ys : List Char) : Option (Nat × Nat × Nat) :=
            match ys with
            | [y1, y2, y3, y4] =>
                if y1.isDigit && y2.isDigit && y3.isDigit && y4.isDigit then
                  let year := digitsToNat [y1, y2, y3, y4]
                  if 1 ≤ day ∧ day ≤ daysInMonth month year then some (year, month, day)
                  else none
                else none
            | _ => none
          (match rest with
           | d1 :: d2 :: ',' :: ' ' :: ys =>
               if d1.isDigit && d2.isDigit then finish (digitsToNat [d1, d2]) ys else none
           | d1 :: ',' :: ' ' :: ys =>
               if d1.isDigit then finish (digitsToNat [d1]) ys else none
           | _ => none)
      | none => none
  | _ => none

/-- The dictionary built by `get_player_facts_with_reusable_driver`: a failed
main-facts or extra-facts lookup, or a failed item inside either list,
re-raises instead of degrading. -/
def factsDictE (env : FactsEnv) : Except String (List (String × String)) :=
  match env.mainFacts with
  | none => .error "Failed to extract main facts."
  | some items =>
      match buildDictE false items [] with
      | .error _ => .error "Failed to extract main facts."
      | .ok d1 =>
          match env.extraFacts with
          | none => .error "Failed to extract extra facts."
          | some items2 =>
              match buildDictE true items2 d1 with
              | .error e => .error ("Failed to extract extra facts: " ++ e)
              | .ok d2 => .ok d2

/-- The date-of-birth step of the reusable variant: present but unparseable
text raises. -/
def dobResult (d : List (String × String)) : Except String (Option (Nat × Nat × Nat)) :=
  match dget d "Date of Birth" with
  | none => .ok none
  | some v =>
      match parse_to_datetime v with
      | some dt => .ok (some dt)
      | none => .error "ValueError: time data does not match format"

/-- The single-row record compiled by `get_player_facts_with_reusable_driver`. -/
structure FactsRowR where
  player_name_ep : String
  player_link_ep : String
  date_of_birth : Option (Nat × Nat × Nat)
  nation : Option String
  position : Option String
  height_cm : Option Nat
  weight_kg : Option Nat
  shoots : Option String
  player_type : Option (List String)
  nhl_rights : Option String
  draft : Option (String × String × String)
  highlights : List String
  description : Option String
deriving Repr, DecidableEq

/-- `get_player_facts_with_reusable_driver`, from the appearance of the facts
container onwards.  The facts-dictionary and date-of-birth steps re-raise on
failure (wrapped in the outer `[ERROR]` message); the highlights,
player-type and description groups stay individually guarded. -/
def get_player_facts_with_reusable_driver (player_name player_url : String) (env : FactsEnv) :
    Except String FactsRowR :=
  match factsDictE env with
  | .error e => .error ("[ERROR] Failed to get facts for " ++ player_name ++ ": " ++ e)
  | .ok d =>
      match dobResult d with
      | .error e => .error ("[ERROR] Failed to get facts for " ++ player_name ++ ": " ++ e)
      | .ok dob =>
          .ok
            { player_name_ep := player_name
              player_link_ep := player_url
              date_of_birth := dob
              nation := dget d "Nation"
              position := dget d "Position"
              height_cm := (dget d "Height").bind (fun s => searchNumUnit "cm".data s.data)
              weight_kg := (dget d "Weight").bind (fun s => searchNumUnit "kg".data s.data)
              shoots := dget d "Shoots"
              player_type :=
                match env.playerTypes with
                | some raws => some (processPlayerTypes raws)
                | none => none
              nhl_rights := dget d "NHL Rights"
              draft := extract_draft_info (dget d "Draft")
              highlights :=
                match env.highlights with
                | some ts => processHighlights ts
                | none => []
              description :=
                truncate_description
                  (match env.description with
                   | some raw => some (descFromText raw)
                   | none => none) }

end EP

/-! ### Concrete instances used by the claim theorems -/

/-- A regular-season frame with the checked columns but no `player_name`. -/
def c1Regular : DataFrame :=
  ⟨["season", "team", "league", "gp"],
   [[some "2020-2021", some "BOS", some "nhl", some "50"]]⟩

/-- A postseason frame with all four merge-key columns. -/
def c1Postseason : DataFrame :=
  ⟨["player_name", "season", "team", "league", "gp"],
   [[some "A B", some "2020-2021", some "BOS", some "nhl", some "10"]]⟩

/-- A regular-season frame missing the checked column `league`. -/
def c1NoLeague : DataFrame :=
  ⟨["season", "team"], [[some "2020-2021", some "BOS"]]⟩

/-- A complete regular-season frame with one row. -/
def c1FullRegular : DataFrame :=
  ⟨["player_name", "season", "team", "league", "gp"],
   [[some "A B", some "2020-2021", some "BOS", some "nhl", some "50"]]⟩

/-- A postseason row whose key tuple matches no row of `c1FullRegular`. -/
def c1StrayRow : List (Option String) :=
  [some "C D", some "2020-2021", some "BOS", some "nhl", some "7"]

/-- A postseason frame holding only the stray row. -/
def c1StrayPost : DataFrame :=
  ⟨["player_name", "season", "team", "league", "gp"], [c1StrayRow]⟩

/-- A facts environment whose description element carries the biography text
of the claimed example and whose other lookups raise. -/
def c2Env : EP.FactsEnv :=
  { mainFacts := none, extraFacts := none, highlights := none,
    playerTypes := none,
    description := some "He plays fast. He scores goals [EP 2023]" }

/-- A table row on which every lookup succeeds, raster image included. -/
def c3Row : NHL.RowEnv :=
  { nameElem := some ("Brad Marchand", "https://www.nhl.com/player/8473419"),
    imgElem := some (some "https://assets.nhl.com/headshot.png"),
    svgElem := none,
    posElem := some "LW" }

/-- The record the reusable variant appends for `c3Row`. -/
def c3Rec : NHL.PlayerRec :=
  { player_name := "Brad Marchand", player_pos := "LW",
    player_link := "https://www.nhl.com/player/8473419",
    player_image := some "https://assets.nhl.com/headshot.png" }

/-- A facts environment where only the main-facts lookup fails and every
other group succeeds. -/
def c4BadEnv : EP.FactsEnv :=
  { mainFacts := none,
    extraFacts := some [⟨some "Nation", "Nation Canada"⟩],
    highlights := some [some "Gold Medal"],
    playerTypes := some ["Sniper"],
    description := some "A fine player. [EP 2021]" }

/-- A facts environment on which the reusable variant succeeds. -/
def c4GoodEnv : EP.FactsEnv :=
  { mainFacts := some [], extraFacts := some [],
    highlights := some [some "Gold Medal"],
    playerTypes := some ["Sniper"], description := none }

/-- The row the reusable variant compiles for `c4GoodEnv`. -/
def c4GoodRow : EP.FactsRowR :=
  { player_name_ep := "P", player_link_ep := "u", date_of_birth := none,
    nation := none, position := none, height_cm := none, weight_kg := none,
    shoots := none, player_type := some ["Sniper"], nhl_rights := none,
    draft := none, highlights := ["Gold Medal"], description := none }

/-! ### Helper lemmas -/

theorem flatMap_congr_mem {α β : Type} {l : List α} {f g : α → List β}
    (h : ∀ a ∈ l, f a = g a) : l.flatMap f = l.flatMap g := by
  induction l with
  | nil => rfl
  | cons a t ih =>
      simp only [List.flatMap_cons]
      rw [h a (List.mem_cons_self a t), ih (fun x hx => h x (List.mem_cons_of_mem a hx))]

theorem requiredOk_of_keysPresent {dfR dfP : DataFrame}
    (h : EP.mergeKeysPresent dfR dfP = true) : EP.requiredColumnsOk dfR dfP = true := by
  simp only [EP.mergeKeysPresent, EP.mergeKeys, EP.requiredColumnsOk, List.all_cons,
    List.all_nil, Bool.and_true, Bool.and_eq_true] at h ⊢
  exact ⟨⟨h.1.2.1, h.1.2.2.1, h.1.2.2.2⟩, ⟨h.2.2.1, h.2.2.2.1, h.2.2.2.2⟩⟩

/-! ### Claim theorems -/

/-- Claim C1, counterexample:  The claim says that whenever a required join
column is absent from either input, `merge_stats` does not fail but returns
the plain concatenation.  With `player_name` — one of the four join
columns — absent from the regular-season frame while the checked columns
`{season, team, league}` are all present, the sanity check passes and
`pd.merge` raises `KeyError`: the operation fails. -/
theorem merge_stats_missing_player_name_fails :
    (EP.merge_stats c1Regular c1Postseason).isOk = false := by decide

/-- Claim C1, amended:  The fallback to concatenation is triggered exactly by
the checked set `{season, team, league}`: (1) whenever one of those three is
absent from either input, the result is the plain concatenation after the
logged warning; (2) when all four merge-key columns are present in both
inputs, the result is the left join, so a postseason row whose key tuple
matches no regular-season row can be dropped from the postseason input
without changing the result.  (A frame missing only `player_name` instead
raises, per the counterexample.) -/
theorem merge_stats_amended :
    (∀ dfR dfP : DataFrame, EP.requiredColumnsOk dfR dfP = false →
      EP.merge_stats dfR dfP = .ok (concatDF dfR dfP))
    ∧ (∀ (dfR : DataFrame) (cols : List String) (pre suf : List (List (Option String)))
        (p : List (Option String)),
        EP.mergeKeysPresent dfR ⟨cols, pre ++ p :: suf⟩ = true →
        (∀ lr ∈ dfR.rows, EP.keyTuple cols p ≠ EP.keyTuple dfR.cols lr) →
        EP.merge_stats dfR ⟨cols, pre ++ p :: suf⟩ = EP.merge_stats dfR ⟨cols, pre ++ suf⟩) := by
  constructor
  · intro dfR dfP h
    simp [EP.merge_stats, h]
  · intro dfR cols pre suf p hkeys hstray
    have hkeys2 : EP.mergeKeysPresent dfR ⟨cols, pre ++ suf⟩ = true := hkeys
    have hreq := requiredOk_of_keysPresent hkeys
    have hreq2 : EP.requiredColumnsOk dfR ⟨cols, pre ++ suf⟩ = true := hreq
    simp only [EP.merge_stats, hreq, hreq2, hkeys, hkeys2, Bool.not_true, not_false_eq_true,
      if_false, ite_false, Bool.false_eq_true, if_true]
    simp only [EP.leftMerge, EP.leftMergeCols, EP.leftMergeRows]
    refine congrArg Except.ok ?_
    refine congrArg (DataFrame.mk _) ?_
    refine flatMap_congr_mem (fun lr hlr => ?_)
    have hfalse : (EP.keyTuple cols p == EP.keyTuple dfR.cols lr) = false := by
      exact beq_eq_false_iff_ne.mpr (hstray lr hlr)
    simp only [List.filter_append, List.filter_cons, hfalse, Bool.false_eq_true, if_false]

/-- Claim C1, witness:  The amended theorem at concrete frames: a frame
missing `league` falls back to concatenation, and a postseason frame whose
only row is unmatched merges identically to the empty postseason frame. -/
theorem merge_stats_amended_witness :
    EP.merge_stats c1NoLeague c1Postseason = .ok (concatDF c1NoLeague c1Postseason)
    ∧ EP.merge_stats c1FullRegular c1StrayPost
        = EP.merge_stats c1FullRegular ⟨c1StrayPost.cols, []⟩ :=
  ⟨merge_stats_amended.1 c1NoLeague c1Postseason (by decide),
   merge_stats_amended.2 c1FullRegular c1StrayPost.cols [] [] c1StrayRow (by decide)
     (by intro lr hlr; simp only [c1FullRegular, List.mem_singleton] at hlr
         subst hlr; decide)⟩

/-- Claim C2, counterexample:  The claim says the input
`He plays fast. He scores goals [EP 2023]` yields the description
`He plays fast. He scores goals`.  The pipeline first removes the citation
tag and then truncates at the *last period*, which cuts the unterminated
final sentence as well, so the claimed output is not produced. -/
theorem description_pipeline_counterexample :
    EP.description_pipeline "He plays fast. He scores goals [EP 2023]"
      ≠ some "He plays fast. He scores goals" := by decide

/-- Claim C2, amended:  The citation split followed by `truncate_description`
maps `He plays fast. He scores goals [EP 2023]` to `He plays fast.`: the
year-tagged citation marker is removed and the text is then truncated at the
last period, which also discards the sentence fragment after that period.
The same value appears as the `description` field of `get_player_facts`. -/
theorem description_pipeline_amended :
    EP.description_pipeline "He plays fast. He scores goals [EP 2023]"
      = some "He plays fast."
    ∧ (EP.get_player_facts "P" c2Env).description = some "He plays fast." := by
  constructor
  · decide
  · decide

/-- Claim C3, code bug:  In `get_player_by_team` (the variant that owns its
driver) the position-extraction block and the `players.append` call are
indented inside the `except:` handler of the raster-image lookup.  On a row
where the name, link, raster image and position are all extracted
successfully, the driver variant appends nothing — the row vanishes — while
the reusable-driver variant, whose indentation matches the documented
contract, appends exactly one record with those fields. -/
theorem process_row_raster_image_drops_row :
    NHL.process_row c3Row = none
    ∧ NHL.process_row_reusable c3Row = some c3Rec
    ∧ NHL.collect_rows NHL.process_row [c3Row] = []
    ∧ NHL.collect_rows NHL.process_row_reusable [c3Row] = [c3Rec] := by
  refine ⟨rfl, by decide, rfl, by decide⟩

/-- Claim C4, counterexample:  The claim says that in both variants a failure
of any single field group is caught and does not prevent the remaining
groups.  In the reusable-driver variant a failure of the main-facts group
re-raises and aborts the whole operation, even though every other group
would succeed. -/
theorem facts_reusable_abort_counterexample :
    EP.get_player_facts_with_reusable_driver "P" "u" c4BadEnv
      = .error "[ERROR] Failed to get facts for P: Failed to extract main facts." := by
  rfl

/-- Claim C4, amended:  In the driver-owning `get_player_facts` every field
group is independently best-effort: a failed main-facts, extra-facts or
highlights lookup behaves exactly like an empty one, and a failed
player-types or description lookup only nulls its own output field.  In the
reusable-driver variant this isolation holds only for the highlights,
player-types and description groups — given any environment on which the
operation succeeds, failing one of those three still succeeds and only
only degrades the field of that group — while a main-facts or extra-facts failure
aborts the operation (see the counterexample). -/
theorem get_player_facts_isolation_amended :
    (∀ (env : EP.FactsEnv) (nm : String),
      EP.get_player_facts nm { env with mainFacts := none }
        = EP.get_player_facts nm { env with mainFacts := some [] })
    ∧ (∀ (env : EP.FactsEnv) (nm : String),
      EP.get_player_facts nm { env with extraFacts := none }
        = EP.get_player_facts nm { env with extraFacts := some [] })
    ∧ (∀ (env : EP.FactsEnv) (nm : String),
      EP.get_player_facts nm { env with highlights := none }
        = EP.get_player_facts nm { env with highlights := some [] })
    ∧ (∀ (env : EP.FactsEnv) (nm : String),
      EP.get_player_facts nm { env with playerTypes := none }
        = { EP.get_player_facts nm env with player_type := none })
    ∧ (∀ (env : EP.FactsEnv) (nm : String),
      EP.get_player_facts nm { env with description := none }
        = { EP.get_player_facts nm env with description := none })
    ∧ (∀ (env : EP.FactsEnv) (nm url : String) (row : EP.FactsRowR),
      EP.get_player_facts_with_reusable_driver nm url env = .ok row →
        EP.get_player_facts_with_reusable_driver nm url { env with highlights := none }
          = .ok { row with highlights := [] }
        ∧ EP.get_player_facts_with_reusable_driver nm url { env with playerTypes := none }
          = .ok { row with player_type := none }
        ∧ EP.get_player_facts_with_reusable_driver nm url { env with description := none }
          = .ok { row with description := none }) := by
  refine ⟨fun env nm => rfl, fun env nm => rfl, fun env nm => rfl,
    fun env nm => rfl, fun env nm => rfl, ?_⟩
  intro env nm url row h
  have hdhl : EP.factsDictE { env with highlights := none } = EP.factsDictE env := rfl
  have hdpt : EP.factsDictE { env with playerTypes := none } = EP.factsDictE env := rfl
  have hdds : EP.factsDictE { env with description := none } = EP.factsDictE env := rfl
  cases hd : EP.factsDictE env with
  | error e =>
      simp only [EP.get_player_facts_with_reusable_driver, hd] at h
      exact absurd h (by simp)
  | ok d =>
      cases hb : EP.dobResult d with
      | error e =>
          simp only [EP.get_player_facts_with_reusable_driver, hd, hb] at h
          exact absurd h (by simp)
      | ok dob =>
          simp only [EP.get_player_facts_with_reusable_driver, hd, hb] at h
          simp only [EP.get_player_facts_with_reusable_driver, hdhl, hdpt, hdds, hd, hb]
          simp only [Except.ok.injEq] at h
          subst h
          exact ⟨rfl, rfl, rfl⟩

/-- Claim C4, witness:  The amended theorem applied at a concrete succeeding
environment: failing the highlights lookup still succeeds and only empties
the highlights list. -/
theorem get_player_facts_isolation_amended_witness :
    EP.get_player_facts_with_reusable_driver "P" "u" { c4GoodEnv with highlights := none }
      = .ok { c4GoodRow with highlights := [] } :=
  (get_player_facts_isolation_amended.2.2.2.2.2 c4GoodEnv "P" "u" c4GoodRow rfl).1

/-- Claim C5:  `get_number_of_pages`: a pagination text matching
`([\d\s]+)players found` yields `count // 100 + 1` pages after stripping the
interior spaces of the count — in particular `12 345 players found` yields
124 — and an absent indicator element or an unmatched text yields 0. -/
theorem get_number_of_pages_spec :
    EP.get_number_of_pages (some "12 345 players found") = .ok 124
    ∧ EP.get_number_of_pages none = .ok 0
    ∧ (∀ t : String, EP.searchCount t.data = none →
        EP.get_number_of_pages (some t) = .ok 0)
    ∧ (∀ (t : String) (run : List Char) (n : Nat),
        EP.searchCount t.data = some run →
        pyInt ⟨run.filter (fun c => c ≠ ' ')⟩ = some n →
        EP.get_number_of_pages (some t) = .ok (n / 100 + 1)) := by
  refine ⟨rfl, rfl, ?_, ?_⟩
  · intro t h
    simp only [EP.get_number_of_pages, h]
  · intro t run n h1 h2
    simp only [EP.get_number_of_pages, h1, h2]

/-- Claim C5, witness:  The theorem applied at concrete texts: the matched
`12 345` count gives 124 pages and an unmatched text gives 0. -/
theorem get_number_of_pages_spec_witness :
    EP.get_number_of_pages (some "nothing to collect") = .ok 0
    ∧ EP.get_number_of_pages (some "12 345 players found") = .ok (12345 / 100 + 1) :=
  ⟨get_number_of_pages_spec.2.2.1 "nothing to collect" rfl,
   get_number_of_pages_spec.2.2.2 "12 345 players found" "12 345 ".data 12345 rfl rfl⟩

/-- Claim C6:  The derived roster fields: `Jane Smith (D)` yields player name
`Jane Smith`, position `D` and role `DEF`; `John Doe (C)` yields role `FW`;
and for any present position the role is `DEF` exactly when the position
text contains `D`. -/
theorem roster_derived_fields_spec :
    EP.roster_player_name "Jane Smith (D)" = "Jane Smith"
    ∧ EP.roster_position "Jane Smith (D)" = some "D"
    ∧ EP.roster_role "Jane Smith (D)" = "DEF"
    ∧ EP.roster_player_name "John Doe (C)" = "John Doe"
    ∧ EP.roster_position "John Doe (C)" = some "C"
    ∧ EP.roster_role "John Doe (C)" = "FW"
    ∧ (∀ p : String,
        EP.roster_fw_def (some p) = if p.data.contains 'D' then "DEF" else "FW") :=
  ⟨by decide, by decide, by decide, by decide, by decide, by decide, fun p => rfl⟩

/-- Claim C7:  Every invalid input is rejected before the request stage: an
unknown league or a malformed season makes `get_season_roster` raise with no
URL ever formed, and an unknown team or malformed season does the same for
both variants of `get_player_by_team` (the `.ok` payload of the request
models is the only route to a network access, and an `.error` carries
none). -/
theorem validation_before_network_spec :
    (∀ league season : String, EP.valid_leagues.contains league = false →
      (EP.get_season_roster_request league season).isOk = false)
    ∧ (∀ league season : String, matchesSeasonFormat season = false →
      (EP.get_season_roster_request league season).isOk = false)
    ∧ (∀ team season : String, NHL.validate_team team = false →
      (NHL.get_player_by_team_request team season).isOk = false
      ∧ (NHL.get_player_by_team_with_reusable_driver_request team season).isOk = false)
    ∧ (∀ team season : String, NHL.validate_season season = false →
      (NHL.get_player_by_team_request team season).isOk = false
      ∧ (NHL.get_player_by_team_with_reusable_driver_request team season).isOk = false) := by
  refine ⟨?_, ?_, ?_, ?_⟩
  · intro league season h
    simp only [EP.get_season_roster_request, h, Bool.false_eq_true, not_false_eq_true, if_true]
    rfl
  · intro league season h
    simp only [EP.get_season_roster_request, h, Bool.false_eq_true, not_false_eq_true, if_true]
    split <;> rfl
  · intro team season h
    constructor <;>
      · simp only [NHL.get_player_by_team_request,
          NHL.get_player_by_team_with_reusable_driver_request, h, Bool.false_eq_true,
          not_false_eq_true, if_true]
        rfl
  · intro team season h
    constructor <;>
      · simp only [NHL.get_player_by_team_request,
          NHL.get_player_by_team_with_reusable_driver_request, h, Bool.false_eq_true,
          not_false_eq_true, if_true]
        split <;> rfl

/-- Claim C7, witness:  The theorem at the concrete bad inputs of the spec:
league `fake`, season `2021/2022`, and an unknown team. -/
theorem validation_before_network_spec_witness :
    (EP.get_season_roster_request "fake" "2021-2022").isOk = false
    ∧ (EP.get_season_roster_request "nhl" "2021/2022").isOk = false
    ∧ (NHL.get_player_by_team_request "fake" "2010-2011").isOk = false
    ∧ (NHL.get_player_by_team_request "bruins" "2021/2022").isOk = false :=
  ⟨validation_before_network_spec.1 "fake" "2021-2022" rfl,
   validation_before_network_spec.2.1 "nhl" "2021/2022" rfl,
   (validation_before_network_spec.2.2.1 "fake" "2010-2011" rfl).1,
   (validation_before_network_spec.2.2.2 "bruins" "2021/2022" rfl).1⟩

/-- Claim C8:  For every valid team, season `2004-2005` passes validation and
then returns `None` — the empty result — before a URL is formed or a browser
started, in both the driver-owning and the reusable-driver variant. -/
theorem lockout_season_spec :
    ∀ team : String, NHL.validate_team team = true →
      NHL.get_player_by_team_request team "2004-2005" = .ok none
      ∧ NHL.get_player_by_team_with_reusable_driver_request team "2004-2005" = .ok none := by
  intro team h
  have hs : NHL.validate_season "2004-2005" = true := by decide
  constructor <;>
    simp [NHL.get_player_by_team_request,
      NHL.get_player_by_team_with_reusable_driver_request, h, hs]

/-- Claim C8, witness:  The theorem at team `bruins`. -/
theorem lockout_season_spec_witness :
    NHL.get_player_by_team_request "bruins" "2004-2005" = .ok none
    ∧ NHL.get_player_by_team_with_reusable_driver_request "bruins" "2004-2005" = .ok none :=
  lockout_season_spec "bruins" rfl

/-- Claim C9:  `extract_draft_info`: the text
`1st round, 4th overall (2017)` yields the string tuple
`("1", "4", "2017")`; an absent text, an empty text, and any text in which
the lowercased draft pattern does not occur all yield `None`. -/
theorem extract_draft_info_spec :
    EP.extract_draft_info (some "1st round, 4th overall (2017)") = some ("1", "4", "2017")
    ∧ EP.extract_draft_info none = none
    ∧ EP.extract_draft_info (some "") = none
    ∧ (∀ t : String, EP.searchDraft (t.data.map Char.toLower) = none →
        EP.extract_draft_info (some t) = none) := by
  refine ⟨by decide, rfl, rfl, ?_⟩
  intro t h
  by_cases ht : t = "" <;> simp [EP.extract_draft_info, ht, h]

/-- Claim C9, witness:  The theorem at a concrete patternless text. -/
theorem extract_draft_info_spec_witness :
    EP.extract_draft_info (some "Undrafted") = none :=
  extract_draft_info_spec.2.2.2 "Undrafted" (by decide)

/-- Claim C10:  A roster row whose player display string has no parenthetical
yields an absent (`NaN`) position, and `np.where` treats the `NaN` produced
by `str.contains` on it as a true condition, so such rows are tagged `DEF`
rather than `FW`. -/
theorem missing_position_tagged_def_spec :
    EP.roster_fw_def none = "DEF"
    ∧ EP.roster_position "John Doe" = none
    ∧ EP.roster_role "John Doe" = "DEF"
    ∧ (∀ s : String, EP.roster_position s = none → EP.roster_role s = "DEF") := by
  refine ⟨rfl, by decide, by decide, ?_⟩
  intro s h
  simp only [EP.roster_role, h]
  rfl

/-- Claim C10, witness:  The theorem at the concrete display string
`John Doe`, which has no parenthetical. -/
theorem missing_position_tagged_def_spec_witness :
    EP.roster_role "John Doe" = "DEF" :=
  missing_position_tagged_def_spec.2.2.2 "John Doe" (by decide)
